import Mathlib

/-!
Shallow embedding of the core of the rain task-workflow executor
(server graph store, worker task-execution engine, subworker dispatch,
update synchronization, async-init readiness gate), together with
theorems settling the specification claims about it.

Machine integers of the source are modelled as `Nat`/`Int`; fallible
operations and panics are modelled with `Except`; the single-threaded
event loop is modelled by explicit state passing and by folding a step
function over event traces.
-/

namespace Rain

/-! ## ReadinessGate (`src/common/asycinit.rs`)

The wrapper holds either a pending state with registered wakeup senders
(modelled by their count: the senders carry no data, only `()`), or the
published value. -/

/-- State of an `AsyncInitWrapper`: mirrors `enum State<T>` in
`src/common/asycinit.rs` — `Initing` holds the callbacks (oneshot senders)
to fire when the value becomes ready, `Ready` holds the value. -/
inductive GateState (T : Type) where
  | Initing (senders : Nat)
  | Ready (value : T)
deriving Repr, DecidableEq

/-- Mirrors `struct AsyncInitWrapper<T>` in `src/common/asycinit.rs`. -/
structure AsyncInitWrapper (T : Type) where
  state : GateState T
deriving Repr, DecidableEq

namespace AsyncInitWrapper

/-- Mirrors `AsyncInitWrapper::new`: starts initing with no senders. -/
def new (T : Type) : AsyncInitWrapper T :=
  ⟨GateState.Initing 0⟩

/-- Mirrors `AsyncInitWrapper::is_ready`. -/
def is_ready {T : Type} (w : AsyncInitWrapper T) : Bool :=
  match w.state with
  | GateState.Initing _ => false
  | GateState.Ready _ => true

/-- Mirrors `AsyncInitWrapper::set_value`: on the `Initing` branch every
registered sender is fired (the return value counts them) and the state
becomes `Ready value`; on the `Ready` branch the source panics
("Element is already finished"), modelled as `Except.error`. -/
def set_value {T : Type} (w : AsyncInitWrapper T) (value : T) :
    Except String (AsyncInitWrapper T × Nat) :=
  match w.state with
  | GateState.Initing senders => Except.ok (⟨GateState.Ready value⟩, senders)
  | GateState.Ready _ => Except.error "Element is already finished"

/-- Mirrors `AsyncInitWrapper::wait`: if ready the future resolves at once
(`true`); otherwise a fresh sender is registered and the caller suspends
(`false`). -/
def wait {T : Type} (w : AsyncInitWrapper T) : AsyncInitWrapper T × Bool :=
  match w.state with
  | GateState.Ready _ => (w, true)
  | GateState.Initing senders => (⟨GateState.Initing (senders + 1)⟩, false)

end AsyncInitWrapper

/-! ## Worker task instance: cancellation handle (`src/worker/tasks/instance.rs`) -/

/-- Mirrors `struct TaskInstance`: the one-shot cancellation sender is
`some ()` while the task runs undisturbed; `none` means termination is
already in progress (the comment on `cancel_sender` in the source). -/
structure TaskInstance where
  task_id : Nat
  cancel_sender : Option Unit
deriving Repr, DecidableEq

/-- Mirrors `TaskInstance::stop`: `mem::replace` takes the sender out; if
one was present the cancellation signal is sent (second component `true`),
otherwise stopping is already in progress and nothing happens. -/
def TaskInstance.stop (i : TaskInstance) : TaskInstance × Bool :=
  match i.cancel_sender with
  | some _ => ({ i with cancel_sender := none }, true)
  | none => (i, false)

/-! ## Dispatch selection (`TaskInstance::start`, lines 45-57) -/

/-- Rust `task_type.starts_with("!")` for the one-character pattern used by
the dispatch match: the first character of the string is the marker.
(`String.startsWith` itself is not kernel-reducible, so the embedding uses
this directly computable equivalent.) -/
def startsWithBang (s : String) : Bool :=
  s.data.head? == some '!'

/-- The strategies the dispatch match of `TaskInstance::start` can select:
the four built-in handlers, delegation to a subworker, or
`fail_unknown_type`. -/
inductive TaskFnKind where
  | subworker
  | builtinRun
  | builtinConcat
  | builtinSleep
  | builtinOpen
  | failUnknownType
deriving Repr, DecidableEq

/-- Mirrors the `match task_type` in `TaskInstance::start`: the first arm's
guard catches every type that does not start with `"!"` and sends it to
`start_task_in_subworker`; then the four built-in literals; the wildcard
arm is `fail_unknown_type`. -/
def selectTaskFn (task_type : String) : TaskFnKind :=
  if !(startsWithBang task_type) then TaskFnKind.subworker
  else if task_type == "!run" then TaskFnKind.builtinRun
  else if task_type == "!concat" then TaskFnKind.builtinConcat
  else if task_type == "!sleep" then TaskFnKind.builtinSleep
  else if task_type == "!open" then TaskFnKind.builtinOpen
  else TaskFnKind.failUnknownType

/-! ## Worker-side data model and execution engine
(`src/worker/tasks/instance.rs`) -/

/-- Worker-side task state. The source (`worker::graph::TaskState`) is used
through `TaskState::Running`, `TaskState::Finished` and `set_failed`;
the spec gives the machine `Scheduled → Running → {Finished, Failed}`. -/
inductive WTaskState where
  | Scheduled
  | Running
  | Finished
  | Failed
deriving Repr, DecidableEq

/-- Worker-side data object: a declared output of a task. `data = none`
until produced; `is_finished` (used at `instance.rs` line 96) checks that
the data has been set. Payloads are modelled as `Nat`. -/
structure WDataObject where
  id : Nat
  label : String
  data : Option Nat
deriving Repr, DecidableEq

/-- Mirrors `DataObject::is_finished` as used by the finalization closure:
the object is finished once its data is present. -/
def WDataObject.is_finished (o : WDataObject) : Bool :=
  o.data.isSome

/-- Mirrors `output.get_mut().set_data(data)`. -/
def WDataObject.set_data (o : WDataObject) (d : Nat) : WDataObject :=
  { o with data := some d }

/-- Worker-side task record: the fields of `worker::graph::Task` that
`TaskInstance` reads or writes (id, task_type, requested resources as a
cpu count, config blob, state, outputs, accumulated additionals, failure
reason recorded by `set_failed`). -/
structure WTask where
  id : Nat
  task_type : String
  resources : Nat
  task_config : String
  state : WTaskState
  outputs : List WDataObject
  new_additionals : List String
  failure_reason : Option String
deriving Repr, DecidableEq

/-- Mirrors `Task::set_failed(msg)`: the task becomes `Failed` and the
message is recorded as its failure reason. -/
def WTask.set_failed (t : WTask) (msg : String) : WTask :=
  { t with state := WTaskState.Failed, failure_reason := some msg }

/-- Worker-side engine state: the pieces of `worker::state::State` and
`worker::graph::Graph` the task lifecycle touches. `allocated_cpus` is the
worker's resource counter (`alloc_resources`/`free_resources` add and
subtract the task's requested cpus — modelled from the spec: the bodies
live outside `src/`, the spec calls it the per-worker cpu counter whose
allocate/release must net to zero). `registered` models the registry
`unregister_task` removes from; `updates` models the `task_updated`
publications; `finished_objects` models `object_is_finished`
publications; `running_tasks` and `idle_subworkers` mirror the
`Graph` fields of those names. -/
structure WState where
  allocated_cpus : Nat
  registered : List Nat
  running_tasks : List Nat
  idle_subworkers : List Nat
  updates : List Nat
  finished_objects : List Nat
deriving Repr, DecidableEq

/-- Modelled from the spec: the body of `worker::state::State::alloc_resources`
is not under `src/` (only its caller in `instance.rs` is); per §5 the
per-worker cpu counter is mutated only by the engine, so allocation adds
the task's requested cpus to the counter. -/
def WState.alloc_resources (s : WState) (r : Nat) : WState :=
  { s with allocated_cpus := s.allocated_cpus + r }

/-- Modelled from the spec: the body of `worker::state::State::free_resources`
is not under `src/`; release subtracts the requested cpus from the
counter, pairing the allocation. -/
def WState.free_resources (s : WState) (r : Nat) : WState :=
  { s with allocated_cpus := s.allocated_cpus - r }

/-- Modelled from the spec: the body of `worker::state::State::task_updated`
is not under `src/`; it publishes the task's state change towards the
update sync (§4.2: "publishes the change before execution proceeds"). -/
def WState.task_updated (s : WState) (tid : Nat) : WState :=
  { s with updates := s.updates ++ [tid] }

/-- Modelled from the spec: the body of
`worker::state::State::unregister_task` is not under `src/`; it removes
the task from the worker's task registry. -/
def WState.unregister_task (s : WState) (tid : Nat) : WState :=
  { s with registered := s.registered.erase tid }

/-- Modelled from the spec: the body of
`worker::state::State::object_is_finished` is not under `src/`; it
publishes the output object as finished. -/
def WState.object_is_finished (s : WState) (oid : Nat) : WState :=
  { s with finished_objects := s.finished_objects ++ [oid] }

/-- Outcome of the select between the handler future and the cancellation
receiver in `TaskInstance::start` (lines 81-115): `Ok((true,_))` — the
handler future completed, `Ok((false,_))` — the cancellation receiver
fired first, `Err((e,_))` — the handler future failed with `e`. -/
inductive FinalOutcome where
  | completed
  | cancelled
  | failed (e : String)
deriving Repr, DecidableEq

/-- Mirrors the first phase of `TaskInstance::start` (lines 38-43):
allocate resources, mark the task `Running`, publish the update. -/
def startTaskPhase1 (s : WState) (t : WTask) : WState × WTask :=
  ((s.alloc_resources t.resources).task_updated t.id,
   { t with state := WTaskState.Running })

/-- Mirrors the dispatch-error path of `TaskInstance::start` (lines 61-68):
unregister the task, free its resources, record the error as the failure
reason, publish the update. -/
def startTaskDispatchError (s : WState) (t : WTask) (e : String) :
    WState × WTask :=
  (((s.unregister_task t.id).free_resources t.resources).task_updated t.id,
   t.set_failed e)

/-- Mirrors the finalization closure of `TaskInstance::start`
(lines 86-117): remove the instance from `running_tasks`, publish the
update, unregister the task, free its resources, then branch on the select
outcome: on completion verify every declared output is finished — marking
them finished and the task `Finished` — or override to
`Failed("Some of outputs were not produced")`; on cancellation fail with
"Task terminated by server"; on a handler error record its message. -/
def finalizeTask (s : WState) (t : WTask) (r : FinalOutcome) :
    WState × WTask :=
  let s1 := ((({ s with
      running_tasks := s.running_tasks.erase t.id }).task_updated
        t.id).unregister_task t.id).free_resources t.resources
  match r with
  | FinalOutcome.completed =>
      if t.outputs.all WDataObject.is_finished then
        (t.outputs.foldl (fun acc o => acc.object_is_finished o.id) s1,
         { t with state := WTaskState.Finished })
      else
        (s1, t.set_failed "Some of outputs were not produced")
  | FinalOutcome.cancelled => (s1, t.set_failed "Task terminated by server")
  | FinalOutcome.failed e => (s1, t.set_failed e)

/-- The full lifecycle `TaskInstance::start` drives for one task, with the
chosen handler's synchronous result (`TaskResult`) and — when a future is
returned — its eventual select outcome as parameters (the built-in handler
bodies live outside `src/`): phase 1, then either the dispatch-error path,
or registration of the instance in `running_tasks` (lines 71-79) followed
by the finalization closure. -/
def runTaskLifecycle (s : WState) (t : WTask)
    (dispatch : Except String Unit) (r : FinalOutcome) : WState × WTask :=
  let p1 := startTaskPhase1 s t
  match dispatch with
  | Except.error e => startTaskDispatchError p1.1 p1.2 e
  | Except.ok _ =>
      let s2 := { p1.1 with running_tasks := p1.1.running_tasks ++ [t.id] }
      finalizeTask s2 p1.2 r

/-! ## Subworker response handling
(`TaskInstance::start_task_in_subworker`, lines 171-198) -/

/-- Outcome of the `run_task` RPC to a subworker: either a response
(`ok`, error message, produced output data, task additionals) or a
transport failure before a response. -/
inductive RunTaskRpcResult where
  | response (ok : Bool) (errorMessage : String) (data : List Nat)
      (additionals : String)
  | transportError (errorMessage : String)
deriving Repr, DecidableEq

/-- Mirrors the zip of `response.get_data()` with `task.outputs`: each
produced datum is bound to the corresponding declared output; outputs
beyond the produced data stay untouched (zip stops at the shorter side). -/
def setOutputsData (t : WTask) (data : List Nat) : WTask :=
  { t with outputs :=
      (List.zipWith WDataObject.set_data t.outputs data) ++
        t.outputs.drop data.length }

/-- Mirrors the `.then` closure on `req.send().promise` in
`start_task_in_subworker` (lines 173-198). Its result is the closure's
returned `Result` (which the select in `start` later feeds to
finalization), the idle-subworker pool after the closure, and the mutated
task. Control flow as in the source:
on `Ok(response)` the task's additionals are updated first; with
`ok = true` each output's data is bound and the handle is pushed back to
the idle pool; with `ok = false` the `bail!(error_message)` returns from
the closure before the push statement is reached, so the handle is NOT
pushed; on `Err` (transport failure) the error is stored into `result`
and the push statement still executes, so the handle IS pushed. -/
def subworkerResponseHandler (idle : List Nat) (sw : Nat) (t : WTask)
    (r : RunTaskRpcResult) : Except String Unit × List Nat × WTask :=
  match r with
  | RunTaskRpcResult.response true _ data adds =>
      (Except.ok (), idle ++ [sw],
       setOutputsData { t with new_additionals := t.new_additionals ++ [adds] }
         data)
  | RunTaskRpcResult.response false msg _ adds =>
      (Except.error msg, idle,
       { t with new_additionals := t.new_additionals ++ [adds] })
  | RunTaskRpcResult.transportError msg =>
      (Except.error msg, idle ++ [sw], t)

/-! ## Concrete sample inputs for witnesses and counterexamples -/

/-- A concrete delegated-flavor task with one not-yet-produced output. -/
def sampleTask : WTask :=
  { id := 3, task_type := "py/task", resources := 1, task_config := "cfg",
    state := WTaskState.Scheduled,
    outputs := [⟨10, "out", none⟩],
    new_additionals := [], failure_reason := none }

/-- A concrete task whose single declared output has been produced. -/
def sampleTaskFinished : WTask :=
  { id := 4, task_type := "py/task", resources := 2, task_config := "cfg",
    state := WTaskState.Scheduled,
    outputs := [⟨11, "out", some 99⟩],
    new_additionals := [], failure_reason := none }

/-- A concrete worker engine state. -/
def sampleWState : WState :=
  { allocated_cpus := 0, registered := [3, 4], running_tasks := [],
    idle_subworkers := [], updates := [], finished_objects := [] }

/-! ## Server-side graph registry and worker RPC
(`src/server/rpc/worker.rs`) -/

/-- Server-side data-object state (spec §3: Unfinished, Finished,
Removed). -/
inductive SrvObjState where
  | Unfinished
  | Finished
  | Removed
deriving Repr, DecidableEq

/-- Server-side task state (spec §4.2 machine plus the pre-assignment
states). -/
inductive SrvTaskState where
  | NotAssigned
  | Ready
  | Running
  | Finished
  | Failed
deriving Repr, DecidableEq

/-- Fields of a registered server-side data object that an update batch
touches (state, size, attributes — attributes modelled as an opaque
string blob). -/
structure SObject where
  state : SrvObjState
  size : Nat
  attributes : String
deriving Repr, DecidableEq

/-- Fields of a registered server-side task that an update batch or the
remove_worker cascade touches. -/
structure STask where
  state : SrvTaskState
  attributes : String
  assigned_worker : Option Nat
  failure_reason : Option String
deriving Repr, DecidableEq

/-- One object delta of an update batch:
`(object_id, new_state, size, attributes)` (spec §4.4), as decoded by
`update_states`. -/
structure ObjUpdate where
  id : Nat
  new_state : SrvObjState
  size : Nat
  attributes : String
deriving Repr, DecidableEq

/-- One task delta of an update batch: `(task_id, new_state, attributes)`
(spec §4.4), as decoded by `update_states`. -/
structure TaskUpdate where
  id : Nat
  new_state : SrvTaskState
  attributes : String
deriving Repr, DecidableEq

/-- The server graph registry: registered objects and tasks by id, the
tombstone sets of deliberately removed ids (the "ignored" ids of
`is_object_ignored` / `is_task_ignored`), and the registered workers. -/
structure ServerGraph where
  objects : List (Nat × SObject)
  tasks : List (Nat × STask)
  ignored_objects : List Nat
  ignored_tasks : List Nat
  workers : List Nat
deriving Repr, DecidableEq

/-- Modelled from the spec: the body of `State::is_object_ignored` is not
under `src/`; a removed entity's id is a tombstone (§3 invariant 5), so
the check is membership in the tombstone set. -/
def ServerGraph.is_object_ignored (g : ServerGraph) (id : Nat) : Bool :=
  g.ignored_objects.contains id

/-- Modelled from the spec: the body of `State::is_task_ignored` is not
under `src/`; membership in the task tombstone set. -/
def ServerGraph.is_task_ignored (g : ServerGraph) (id : Nat) : Bool :=
  g.ignored_tasks.contains id

/-- Modelled from the spec: the body of `State::object_by_id` is not under
`src/`; the lookup returns the registered object or fails on an unknown
id (its caller wraps it in `pry!`, aborting the RPC on failure). -/
def ServerGraph.object_by_id (g : ServerGraph) (id : Nat) :
    Except String SObject :=
  match g.objects.lookup id with
  | some o => Except.ok o
  | none => Except.error "object not found"

/-- Modelled from the spec: the body of `State::task_by_id` is not under
`src/`; the lookup returns the registered task or fails on an unknown
id. -/
def ServerGraph.task_by_id (g : ServerGraph) (id : Nat) :
    Except String STask :=
  match g.tasks.lookup id with
  | some t => Except.ok t
  | none => Except.error "task not found"

/-- Mirrors the object collection loop of `update_states` (lines 63-72):
a tombstoned id is skipped with `continue`; an unknown id aborts the
whole call with the lookup's error (`pry!`); a known id's delta is
collected for later application. -/
def collectObjUpdates (g : ServerGraph) :
    List ObjUpdate → Except String (List ObjUpdate)
  | [] => Except.ok []
  | u :: rest =>
      if g.is_object_ignored u.id then collectObjUpdates g rest
      else
        match g.object_by_id u.id with
        | Except.error e => Except.error e
        | Except.ok _ =>
            match collectObjUpdates g rest with
            | Except.error e => Except.error e
            | Except.ok us => Except.ok (u :: us)

/-- Mirrors the task collection loop of `update_states` (lines 74-83),
with the same skip/abort/collect structure. -/
def collectTaskUpdates (g : ServerGraph) :
    List TaskUpdate → Except String (List TaskUpdate)
  | [] => Except.ok []
  | u :: rest =>
      if g.is_task_ignored u.id then collectTaskUpdates g rest
      else
        match g.task_by_id u.id with
        | Except.error e => Except.error e
        | Except.ok _ =>
            match collectTaskUpdates g rest with
            | Except.error e => Except.error e
            | Except.ok us => Except.ok (u :: us)

/-- Modelled from the spec: one collected object delta applied to the
registry — the entity's recorded state, size and attributes are set
(the body of `updates_from_worker` is not under `src/`). -/
def applyObjUpdate (g : ServerGraph) (u : ObjUpdate) : ServerGraph :=
  { g with objects := g.objects.map (fun p =>
      if p.1 = u.id then
        (p.1, { state := u.new_state, size := u.size,
                attributes := u.attributes })
      else p) }

/-- Modelled from the spec: one collected task delta applied to the
registry. -/
def applyTaskUpdate (g : ServerGraph) (u : TaskUpdate) : ServerGraph :=
  { g with tasks := g.tasks.map (fun p =>
      if p.1 = u.id then
        (p.1, { p.2 with state := u.new_state, attributes := u.attributes })
      else p) }

/-- Modelled from the spec: `State::updates_from_worker` is not under
`src/`; per §4.1 the batch is applied with object deltas before task
deltas. -/
def updates_from_worker (g : ServerGraph) (objs : List ObjUpdate)
    (tasks : List TaskUpdate) : ServerGraph :=
  tasks.foldl applyTaskUpdate (objs.foldl applyObjUpdate g)

/-- Mirrors `WorkerUpstreamImpl::update_states` (lines 48-88): both delta
vectors are collected first — tombstoned ids skipped, unknown ids
aborting the call via `pry!` before anything is applied — and only then
is the batch applied through `updates_from_worker`. -/
def update_states (g : ServerGraph) (objs : List ObjUpdate)
    (tasks : List TaskUpdate) : Except String ServerGraph :=
  match collectObjUpdates g objs with
  | Except.error e => Except.error e
  | Except.ok os =>
      match collectTaskUpdates g tasks with
      | Except.error e => Except.error e
      | Except.ok ts => Except.ok (updates_from_worker g os ts)

/-- Modelled from the spec: the body of `State::remove_worker` is not under
`src/` (only its caller, the `Drop` impl for `WorkerUpstreamImpl`, is);
per §4.1 every task assigned to the worker transitions to Failed with
reason "worker lost", then the worker is dropped from the registry. -/
def remove_worker (g : ServerGraph) (w : Nat) : ServerGraph :=
  { g with
      tasks := g.tasks.map (fun p =>
        if p.2.assigned_worker = some w then
          (p.1,
           { p.2 with
              state := SrvTaskState.Failed
              failure_reason := some "worker lost" })
        else p),
      workers := g.workers.filter (fun x => x ≠ w) }

/-! ## Server event loop over worker connections

The per-worker connection handle (`WorkerUpstreamImpl`) is a scoped
resource of the capability transport: a call can only be delivered
through a live handle, and releasing the handle runs its `Drop` impl
synchronously on the single-threaded loop. -/

/-- One event the server's single-threaded loop processes for its worker
connections: an `update_states` call from a worker, or the release of a
worker's connection handle (graceful or accidental disconnect). -/
inductive WorkerEvent where
  | updateStates (w : Nat) (objs : List ObjUpdate) (tasks : List TaskUpdate)
  | disconnect (w : Nat)
deriving Repr, DecidableEq

/-- The server state seen by the connection layer: the graph registry and
the workers with a live `WorkerUpstreamImpl` handle. -/
structure ServerState where
  graph : ServerGraph
  connections : List Nat
deriving Repr, DecidableEq

/-- Mirrors the server's handling of one connection event. An
`update_states` call is delivered only through a live handle (capability
transport semantics: a dropped `WorkerUpstreamImpl` can receive no
further calls); a failing `update_states` returns the error to the caller
with the graph untouched (the source mutates only after both collection
loops). A disconnect mirrors `impl Drop for WorkerUpstreamImpl`
(lines 25-32): `remove_worker` runs synchronously as part of the handle's
release. -/
def serverStep (s : ServerState) (e : WorkerEvent) : ServerState :=
  match e with
  | WorkerEvent.updateStates w objs tasks =>
      if w ∈ s.connections then
        match update_states s.graph objs tasks with
        | Except.ok g => { s with graph := g }
        | Except.error _ => s
      else s
  | WorkerEvent.disconnect w =>
      { graph := remove_worker s.graph w,
        connections := s.connections.filter (fun x => x ≠ w) }

/-- The server loop: events processed in order on the single thread. -/
def serverRun (s : ServerState) (es : List WorkerEvent) : ServerState :=
  es.foldl serverStep s

/-! ## Worker startup cpu computation (`src/bin.rs`, `run_worker`) -/

/-- Mirrors `detect_cpus` in `run_worker` (lines 189-197): the
autodetected count, a fatal startup error when fewer than one cpu is
found. -/
def detect_cpus (detected : Nat) : Except String Int :=
  if detected < 1 then
    Except.error "Autodetection of CPUs failed. Use --cpus with a positive argument."
  else Except.ok (detected : Int)

/-- Mirrors the cpus computation of `run_worker` (lines 199-213): an
explicit nonnegative `--cpus` value is used as-is; a negative value
subtracts from the autodetected count, exiting when no cpus would be
left (`detect_cpus` is called twice there, as in the source); without
`--cpus` the autodetected count is used. `exit(1)` is modelled as
`Except.error`. -/
def computeCpus (cpusArg : Option Int) (detected : Nat) :
    Except String Int :=
  match cpusArg with
  | some value =>
      if value < 0 then
        match detect_cpus detected with
        | Except.error e => Except.error e
        | Except.ok cpus =>
            if cpus ≤ -value then
              Except.error "cpus detected and subtracted via --cpus. No cpus left."
            else
              match detect_cpus detected with
              | Except.error e => Except.error e
              | Except.ok cpus2 => Except.ok (cpus2 + value)
      else Except.ok value
  | none => detect_cpus detected

/-- A concrete server graph: object 1 and task 2 registered; object 90 and
task 91 tombstoned; worker 5 registered with task 2 assigned to it. -/
def sampleGraph : ServerGraph :=
  { objects := [(1, ⟨SrvObjState.Unfinished, 0, "oa"⟩)],
    tasks := [(2, ⟨SrvTaskState.Running, "ta", some 5, none⟩)],
    ignored_objects := [90],
    ignored_tasks := [91],
    workers := [5] }

/-! ## Helper lemmas about the finalization fold -/

/-- Publishing a list of finished objects does not touch the resource
counter. -/
theorem foldl_object_is_finished_allocated (s : WState)
    (l : List WDataObject) :
    (l.foldl (fun acc o => acc.object_is_finished o.id) s).allocated_cpus =
      s.allocated_cpus := by
  induction l generalizing s with
  | nil => rfl
  | cons o l ih => simpa [WState.object_is_finished] using ih _

/-- Publishing a list of finished objects appends exactly their ids. -/
theorem foldl_object_is_finished_list (s : WState) (l : List WDataObject) :
    (l.foldl (fun acc o => acc.object_is_finished o.id) s).finished_objects =
      s.finished_objects ++ l.map WDataObject.id := by
  induction l generalizing s with
  | nil => simp
  | cons o l ih =>
      rw [List.foldl_cons, ih]
      simp [WState.object_is_finished]

end Rain

namespace Rain

/-! ## Claim theorems (first group) -/

/-- Claim C2: on every exit path of the engine's task lifecycle — dispatch
error, normal completion (with or without all outputs produced),
cancellation, handler failure — the allocated resources are released
exactly once, so the worker's resource counter after the terminal
transition equals its value before the task started. -/
theorem c2_resources_net_zero (s : WState) (t : WTask)
    (dispatch : Except String Unit) (r : FinalOutcome) :
    (runTaskLifecycle s t dispatch r).1.allocated_cpus = s.allocated_cpus := by
  cases dispatch with
  | error e =>
      simp [runTaskLifecycle, startTaskPhase1, startTaskDispatchError,
        WState.alloc_resources, WState.free_resources, WState.task_updated,
        WState.unregister_task]
  | ok u =>
      cases r with
      | completed =>
          by_cases h : t.outputs.all WDataObject.is_finished
          · simp [runTaskLifecycle, startTaskPhase1, finalizeTask, h,
              foldl_object_is_finished_allocated, WState.alloc_resources,
              WState.free_resources, WState.task_updated,
              WState.unregister_task]
          · simp [runTaskLifecycle, startTaskPhase1, finalizeTask, h,
              WState.alloc_resources, WState.free_resources,
              WState.task_updated, WState.unregister_task]
      | cancelled =>
          simp [runTaskLifecycle, startTaskPhase1, finalizeTask,
            WState.alloc_resources, WState.free_resources,
            WState.task_updated, WState.unregister_task]
      | failed e =>
          simp [runTaskLifecycle, startTaskPhase1, finalizeTask,
            WState.alloc_resources, WState.free_resources,
            WState.task_updated, WState.unregister_task]

/-- Claim C3 counterexample: for a task with one unproduced output, normal
completion overrides the result to Failed — but with the reason
"Some of outputs were not produced", not the claimed exact string
"some outputs were not produced". -/
theorem c3_counterexample :
    (runTaskLifecycle sampleWState sampleTask (Except.ok ())
      FinalOutcome.completed).2.failure_reason =
        some "Some of outputs were not produced" ∧
    (some "Some of outputs were not produced" : Option String) ≠
      some "some outputs were not produced" := by
  decide

/-- Claim C3 amended: a task reaches Finished iff dispatch succeeded, the
handler completed normally, and all declared outputs are Finished; on
normal completion with a missing output the result is overridden to
Failed with reason "Some of outputs were not produced" (the source's
literal); on normal completion with all outputs produced the task becomes
Finished and all outputs are published as finished. -/
theorem c3_finished_iff_outputs (s : WState) (t : WTask)
    (dispatch : Except String Unit) (r : FinalOutcome) :
    ((runTaskLifecycle s t dispatch r).2.state = WTaskState.Finished ↔
      dispatch = Except.ok () ∧ r = FinalOutcome.completed ∧
        t.outputs.all WDataObject.is_finished = true) ∧
    (dispatch = Except.ok () → r = FinalOutcome.completed →
      t.outputs.all WDataObject.is_finished = false →
      (runTaskLifecycle s t dispatch r).2.state = WTaskState.Failed ∧
      (runTaskLifecycle s t dispatch r).2.failure_reason =
        some "Some of outputs were not produced") ∧
    (dispatch = Except.ok () → r = FinalOutcome.completed →
      t.outputs.all WDataObject.is_finished = true →
      (runTaskLifecycle s t dispatch r).1.finished_objects =
        s.finished_objects ++ t.outputs.map WDataObject.id) := by
  refine ⟨?_, ?_, ?_⟩
  · cases dispatch with
    | error e =>
        simp [runTaskLifecycle, startTaskPhase1, startTaskDispatchError,
          WTask.set_failed]
    | ok u =>
        cases r with
        | completed =>
            by_cases h : t.outputs.all WDataObject.is_finished
            · simp [runTaskLifecycle, startTaskPhase1, finalizeTask, h]
            · simp [runTaskLifecycle, startTaskPhase1, finalizeTask, h,
                WTask.set_failed]
        | cancelled =>
            simp [runTaskLifecycle, startTaskPhase1, finalizeTask,
              WTask.set_failed]
        | failed e =>
            simp [runTaskLifecycle, startTaskPhase1, finalizeTask,
              WTask.set_failed]
  · intro hd hr h
    subst hd; subst hr
    simp [runTaskLifecycle, startTaskPhase1, finalizeTask, h,
      WTask.set_failed]
  · intro hd hr h
    subst hd; subst hr
    simp [runTaskLifecycle, startTaskPhase1, finalizeTask, h,
      foldl_object_is_finished_list, WState.alloc_resources,
      WState.free_resources, WState.task_updated, WState.unregister_task]

/-- Witness for C3 at a concrete task whose output was produced: the task
finishes. -/
theorem c3_witness :
    (runTaskLifecycle sampleWState sampleTaskFinished (Except.ok ())
      FinalOutcome.completed).2.state = WTaskState.Finished :=
  (c3_finished_iff_outputs sampleWState sampleTaskFinished (Except.ok ())
    FinalOutcome.completed).1.mpr ⟨rfl, rfl, by decide⟩

/-- Claim C1 (code divergence), evaluated at concrete inputs. Application
failure — the subworker responds ok = false with message "boom": the
message becomes the closure's error (and, through finalization, the
task's recorded failure reason), but the handle 7 is NOT returned to the
idle pool, because the bail! returns from the closure before the push.
Transport failure — the connection is lost before a response: the task is
failed, and the handle 7 IS pushed back to the idle pool. Both pool
effects are the reverse of the claim. -/
theorem c1_pool_asymmetry_reversed :
    (subworkerResponseHandler [] 7 sampleTask
      (RunTaskRpcResult.response false "boom" [] "a")).1 =
        Except.error "boom" ∧
    (subworkerResponseHandler [] 7 sampleTask
      (RunTaskRpcResult.response false "boom" [] "a")).2.1 = [] ∧
    (subworkerResponseHandler [] 7 sampleTask
      (RunTaskRpcResult.transportError "lost")).1 = Except.error "lost" ∧
    (subworkerResponseHandler [] 7 sampleTask
      (RunTaskRpcResult.transportError "lost")).2.1 = [7] ∧
    (runTaskLifecycle sampleWState sampleTask (Except.ok ())
      (FinalOutcome.failed "boom")).2.failure_reason = some "boom" :=
  ⟨rfl, rfl, rfl, rfl, rfl⟩

/-- Claim C7: publishing a value through the readiness gate a second time is
detected as a fatal programming error (the source panics with
"Element is already finished", modelled as `Except.error`), never a silent
overwrite: after any successful `set_value` the wrapper refuses every
further `set_value`. -/
theorem c7_set_value_twice_fatal {T : Type} (w w1 : AsyncInitWrapper T)
    (v1 v2 : T) (n : Nat) (h : w.set_value v1 = Except.ok (w1, n)) :
    w1.set_value v2 = Except.error "Element is already finished" := by
  obtain ⟨st⟩ := w
  cases st with
  | Initing s =>
      simp only [AsyncInitWrapper.set_value, Except.ok.injEq, Prod.mk.injEq] at h
      obtain ⟨h1, _⟩ := h
      subst h1
      rfl
  | Ready v => simp [AsyncInitWrapper.set_value] at h

/-- Witness for C7 at a concrete gate. -/
theorem c7_witness :
    (AsyncInitWrapper.new Nat).set_value 5 =
      Except.ok (⟨GateState.Ready 5⟩, 0) ∧
    (AsyncInitWrapper.mk (GateState.Ready 5)).set_value 6 =
      Except.error "Element is already finished" :=
  ⟨rfl, c7_set_value_twice_fatal (AsyncInitWrapper.new Nat)
    ⟨GateState.Ready 5⟩ 5 6 0 rfl⟩

/-- Claim C6: `stop` on a running task instance (cancellation sender still
present) is idempotent: the first call sends the one-shot cancellation
signal, and the second call observes cancellation already in progress and
changes nothing — exactly one cancellation effect. -/
theorem c6_stop_idempotent (i : TaskInstance) (h : i.cancel_sender = some ()) :
    i.stop.2 = true ∧ i.stop.1.stop = (i.stop.1, false) := by
  obtain ⟨tid, cs⟩ := i
  cases cs with
  | none => simp at h
  | some u => exact ⟨rfl, rfl⟩

/-- Witness for C6 at a concrete running instance. -/
theorem c6_witness :
    (TaskInstance.mk 1 (some ())).stop.2 = true ∧
    (TaskInstance.mk 1 (some ())).stop.1.stop =
      ((TaskInstance.mk 1 (some ())).stop.1, false) :=
  c6_stop_idempotent (TaskInstance.mk 1 (some ())) rfl

/-- Claim C5 counterexample: the task type "!xyz" is none of the four
built-in types, yet dispatch does not delegate it to the
SubworkerDispatcher (it selects `fail_unknown_type`), refuting "every
other task type is delegated". -/
theorem c5_counterexample :
    ("!xyz" ≠ "!run" ∧ "!xyz" ≠ "!concat" ∧ "!xyz" ≠ "!sleep" ∧
      "!xyz" ≠ "!open") ∧
    selectTaskFn "!xyz" ≠ TaskFnKind.subworker := by
  decide

/-- Claim C5 amended: dispatch selects the strategy solely from the
task_type tag: every type not starting with "!" is delegated to the
SubworkerDispatcher; "!run", "!concat", "!sleep", "!open" select the
respective built-in handlers; every other "!"-prefixed type selects
`fail_unknown_type`. -/
theorem c5_dispatch_selection (t : String) :
    (selectTaskFn t = TaskFnKind.subworker ↔ startsWithBang t = false) ∧
    selectTaskFn "!run" = TaskFnKind.builtinRun ∧
    selectTaskFn "!concat" = TaskFnKind.builtinConcat ∧
    selectTaskFn "!sleep" = TaskFnKind.builtinSleep ∧
    selectTaskFn "!open" = TaskFnKind.builtinOpen ∧
    (startsWithBang t = true → t ≠ "!run" → t ≠ "!concat" → t ≠ "!sleep" →
      t ≠ "!open" → selectTaskFn t = TaskFnKind.failUnknownType) := by
  refine ⟨?_, by decide, by decide, by decide, by decide, ?_⟩
  · unfold selectTaskFn
    cases h : startsWithBang t with
    | false => simp
    | true =>
        simp only [h, Bool.not_true, Bool.false_eq_true, if_false]
        constructor
        · intro hc
          exfalso
          split at hc <;> first
            | exact absurd hc (by decide)
            | (split at hc <;> first
                | exact absurd hc (by decide)
                | (split at hc <;> first
                    | exact absurd hc (by decide)
                    | (split at hc <;> exact absurd hc (by decide))))
        · intro hf
          simp at hf
  · intro hb h1 h2 h3 h4
    unfold selectTaskFn
    rw [hb]
    simp [h1, h2, h3, h4]

/-- Witness for C5: a "!"-prefixed type that is none of the four built-ins
selects fail_unknown_type. -/
theorem c5_witness : selectTaskFn "!misc" = TaskFnKind.failUnknownType :=
  (c5_dispatch_selection "!misc").2.2.2.2.2 (by decide) (by decide)
    (by decide) (by decide) (by decide)

/-! ## Helper lemmas about update collection -/

/-- Collecting object deltas ignores exactly the tombstoned ids: the
collection result equals the one over the batch with those deltas
filtered out. -/
theorem collectObjUpdates_filter (g : ServerGraph) (l : List ObjUpdate) :
    collectObjUpdates g l =
      collectObjUpdates g
        (l.filter (fun u => !(g.is_object_ignored u.id))) := by
  induction l with
  | nil => rfl
  | cons u rest ih =>
      cases h : g.is_object_ignored u.id with
      | true => simp [collectObjUpdates, h, List.filter_cons, ih]
      | false => simp [collectObjUpdates, h, List.filter_cons, ih]

/-- Collecting task deltas ignores exactly the tombstoned ids. -/
theorem collectTaskUpdates_filter (g : ServerGraph) (l : List TaskUpdate) :
    collectTaskUpdates g l =
      collectTaskUpdates g
        (l.filter (fun u => !(g.is_task_ignored u.id))) := by
  induction l with
  | nil => rfl
  | cons u rest ih =>
      cases h : g.is_task_ignored u.id with
      | true => simp [collectTaskUpdates, h, List.filter_cons, ih]
      | false => simp [collectTaskUpdates, h, List.filter_cons, ih]

/-- A batch of only tombstoned object ids collects to nothing. -/
theorem collectObjUpdates_all_ignored (g : ServerGraph) (l : List ObjUpdate)
    (h : ∀ u ∈ l, g.is_object_ignored u.id = true) :
    collectObjUpdates g l = Except.ok [] := by
  induction l with
  | nil => rfl
  | cons u rest ih =>
      have hu := h u (by simp)
      rw [show collectObjUpdates g (u :: rest) = collectObjUpdates g rest by
        simp [collectObjUpdates, hu]]
      exact ih (fun v hv => h v (by simp [hv]))

/-- A batch of only tombstoned task ids collects to nothing. -/
theorem collectTaskUpdates_all_ignored (g : ServerGraph)
    (l : List TaskUpdate)
    (h : ∀ u ∈ l, g.is_task_ignored u.id = true) :
    collectTaskUpdates g l = Except.ok [] := by
  induction l with
  | nil => rfl
  | cons u rest ih =>
      have hu := h u (by simp)
      rw [show collectTaskUpdates g (u :: rest) = collectTaskUpdates g rest by
        simp [collectTaskUpdates, hu]]
      exact ih (fun v hv => h v (by simp [hv]))

/-- A non-tombstoned unknown object id anywhere in the batch makes the
collection loop abort with an error. -/
theorem collectObjUpdates_unknown_errors (g : ServerGraph)
    (l : List ObjUpdate)
    (h : ∃ u ∈ l, g.is_object_ignored u.id = false ∧
      g.objects.lookup u.id = none) :
    ∃ e, collectObjUpdates g l = Except.error e := by
  induction l with
  | nil => simp at h
  | cons u rest ih =>
      obtain ⟨v, hv, hnig, hlk⟩ := h
      rcases List.mem_cons.mp hv with hvu | hvrest
      · subst hvu
        exact ⟨"object not found",
          by simp [collectObjUpdates, hnig, ServerGraph.object_by_id, hlk]⟩
      · obtain ⟨e, he⟩ := ih ⟨v, hvrest, hnig, hlk⟩
        cases hig : g.is_object_ignored u.id with
        | true => exact ⟨e, by simp [collectObjUpdates, hig, he]⟩
        | false =>
            cases hob : g.object_by_id u.id with
            | error e2 =>
                exact ⟨e2, by simp [collectObjUpdates, hig, hob]⟩
            | ok o =>
                exact ⟨e, by simp [collectObjUpdates, hig, hob, he]⟩

/-- A non-tombstoned unknown task id anywhere in the batch makes the
collection loop abort with an error. -/
theorem collectTaskUpdates_unknown_errors (g : ServerGraph)
    (l : List TaskUpdate)
    (h : ∃ u ∈ l, g.is_task_ignored u.id = false ∧
      g.tasks.lookup u.id = none) :
    ∃ e, collectTaskUpdates g l = Except.error e := by
  induction l with
  | nil => simp at h
  | cons u rest ih =>
      obtain ⟨v, hv, hnig, hlk⟩ := h
      rcases List.mem_cons.mp hv with hvu | hvrest
      · subst hvu
        exact ⟨"task not found",
          by simp [collectTaskUpdates, hnig, ServerGraph.task_by_id, hlk]⟩
      · obtain ⟨e, he⟩ := ih ⟨v, hvrest, hnig, hlk⟩
        cases hig : g.is_task_ignored u.id with
        | true => exact ⟨e, by simp [collectTaskUpdates, hig, he]⟩
        | false =>
            cases hob : g.task_by_id u.id with
            | error e2 =>
                exact ⟨e2, by simp [collectTaskUpdates, hig, hob]⟩
            | ok o =>
                exact ⟨e, by simp [collectTaskUpdates, hig, hob, he]⟩

/-! ## Helper lemmas about the server event loop -/

/-- Once a worker's connection handle is gone, no step restores it:
`serverStep` never adds connections. -/
theorem serverStep_preserves_no_connection (s : ServerState)
    (e : WorkerEvent) (w : Nat) (h : w ∉ s.connections) :
    w ∉ (serverStep s e).connections := by
  cases e with
  | updateStates w2 objs tasks =>
      simp only [serverStep]
      by_cases hc : w2 ∈ s.connections
      · simp only [hc, if_true]
        cases update_states s.graph objs tasks with
        | ok g => exact h
        | error e2 => exact h
      · simp only [hc, if_false]
        exact h
  | disconnect w2 =>
      simp only [serverStep]
      intro hmem
      exact h (List.mem_of_mem_filter hmem)

/-- The previous lemma along a whole trace. -/
theorem serverRun_preserves_no_connection (s : ServerState)
    (es : List WorkerEvent) (w : Nat) (h : w ∉ s.connections) :
    w ∉ (serverRun s es).connections := by
  induction es generalizing s with
  | nil => exact h
  | cons e es ih =>
      exact ih _ (serverStep_preserves_no_connection s e w h)

/-- An update_states call from a worker without a live connection handle
is never delivered: the step is the identity. -/
theorem serverStep_stale_update_noop (s : ServerState) (w : Nat)
    (objs : List ObjUpdate) (tasks : List TaskUpdate)
    (h : w ∉ s.connections) :
    serverStep s (WorkerEvent.updateStates w objs tasks) = s := by
  simp [serverStep, h]

end Rain

namespace Rain

/-! ## Claim theorems (second group) -/

/-- Claim C4: applying a worker update batch, the deltas referencing
tombstoned (deliberately removed) ids are silently skipped: the call
behaves exactly as if those deltas were absent, and a batch consisting
only of tombstoned references succeeds with no observable change to the
graph. -/
theorem c4_tombstoned_deltas_skipped (g : ServerGraph)
    (objs : List ObjUpdate) (tasks : List TaskUpdate) :
    (update_states g objs tasks =
      update_states g (objs.filter (fun u => !(g.is_object_ignored u.id)))
        (tasks.filter (fun u => !(g.is_task_ignored u.id)))) ∧
    ((∀ u ∈ objs, g.is_object_ignored u.id = true) →
      (∀ u ∈ tasks, g.is_task_ignored u.id = true) →
      update_states g objs tasks = Except.ok g) := by
  constructor
  · unfold update_states
    rw [← collectObjUpdates_filter, ← collectTaskUpdates_filter]
  · intro ho ht
    unfold update_states
    rw [collectObjUpdates_all_ignored g objs ho,
      collectTaskUpdates_all_ignored g tasks ht]
    rfl

/-- Witness for C4: a batch referencing only the tombstoned object 90 and
tombstoned task 91 succeeds and leaves the sample graph unchanged. -/
theorem c4_witness :
    update_states sampleGraph [⟨90, SrvObjState.Finished, 7, "x"⟩]
      [⟨91, SrvTaskState.Finished, "y"⟩] = Except.ok sampleGraph :=
  (c4_tombstoned_deltas_skipped sampleGraph
    [⟨90, SrvObjState.Finished, 7, "x"⟩]
    [⟨91, SrvTaskState.Finished, "y"⟩]).2 (by decide) (by decide)

/-- Claim C10: a delta whose id is neither registered nor tombstoned makes
the whole update_states call fail with an error from the id lookup
(rather than being skipped); only tombstoned ids are skipped silently
(the latter half is c4_tombstoned_deltas_skipped). -/
theorem c10_unknown_id_fails_call (g : ServerGraph)
    (objs : List ObjUpdate) (tasks : List TaskUpdate)
    (h : (∃ u ∈ objs, g.is_object_ignored u.id = false ∧
            g.objects.lookup u.id = none) ∨
         (∃ u ∈ tasks, g.is_task_ignored u.id = false ∧
            g.tasks.lookup u.id = none)) :
    ∃ e, update_states g objs tasks = Except.error e := by
  cases h with
  | inl hobj =>
      obtain ⟨e, he⟩ := collectObjUpdates_unknown_errors g objs hobj
      exact ⟨e, by simp [update_states, he]⟩
  | inr htask =>
      obtain ⟨e, he⟩ := collectTaskUpdates_unknown_errors g tasks htask
      cases hc : collectObjUpdates g objs with
      | error e2 => exact ⟨e2, by simp [update_states, hc]⟩
      | ok os => exact ⟨e, by simp [update_states, hc, he]⟩

/-- Witness for C10: object id 50 is unknown (neither registered nor
tombstoned) in the sample graph, so the call fails. -/
theorem c10_witness :
    ∃ e, update_states sampleGraph [⟨50, SrvObjState.Finished, 1, "z"⟩] [] =
      Except.error e :=
  c10_unknown_id_fails_call sampleGraph
    [⟨50, SrvObjState.Finished, 1, "z"⟩] [] (Or.inl (by decide))

/-- Claim C8: releasing a worker's server-side connection handle runs
remove_worker synchronously at that point of the event trace, the
worker's connection is gone from then on, and any later update_states
call from that worker — after arbitrary further traffic — is a complete
no-op on the server state. -/
theorem c8_disconnect_synchronous_cleanup (s : ServerState)
    (t1 t2 : List WorkerEvent) (w : Nat) (objs : List ObjUpdate)
    (tasks : List TaskUpdate) :
    (serverRun s (t1 ++ [WorkerEvent.disconnect w])).graph =
      remove_worker (serverRun s t1).graph w ∧
    ((serverRun s (t1 ++ [WorkerEvent.disconnect w])).connections.contains w
      = false) ∧
    serverStep (serverRun (serverRun s (t1 ++ [WorkerEvent.disconnect w])) t2)
        (WorkerEvent.updateStates w objs tasks) =
      serverRun (serverRun s (t1 ++ [WorkerEvent.disconnect w])) t2 := by
  have hrun : serverRun s (t1 ++ [WorkerEvent.disconnect w]) =
      serverStep (serverRun s t1) (WorkerEvent.disconnect w) := by
    simp [serverRun, List.foldl_append]
  have hnc : w ∉ (serverRun s (t1 ++ [WorkerEvent.disconnect w])).connections := by
    rw [hrun]
    simp [serverStep, List.mem_filter]
  refine ⟨by rw [hrun]; rfl, ?_, ?_⟩
  · simpa using hnc
  · exact serverStep_stale_update_noop _ w objs tasks
      (serverRun_preserves_no_connection _ t2 w hnc)

/-- Claim C9 counterexample: with an explicit override of zero cpus
(--cpus 0) and four autodetectable cpus, the worker starts with a
computed capacity of 0, although 0 ≤ 0 — it does not refuse. -/
theorem c9_counterexample :
    computeCpus (some 0) 4 = Except.ok 0 ∧ (0 : Int) ≤ 0 :=
  ⟨rfl, le_refl 0⟩

/-- Claim C9 amended: the worker refuses to start whenever the computed
cpu capacity would be ≤ 0 in the autodetection and subtract paths —
autodetection fails with no cpu detected, and the subtract path fails
when subtraction would leave none — but an explicit nonnegative --cpus
value is used as-is, so an explicit --cpus 0 is accepted with capacity
0: every accepted capacity is positive or came from an explicit zero. -/
theorem c9_capacity_positive_or_explicit_zero (a : Option Int) (d : Nat)
    (c : Int) (v : Int) :
    (computeCpus a d = Except.ok c → 0 < c ∨ (a = some 0 ∧ c = 0)) ∧
    (∃ e, computeCpus none 0 = Except.error e) ∧
    (v < 0 → (d : Int) ≤ -v → ∃ e, computeCpus (some v) d = Except.error e) := by
  refine ⟨?_, ⟨_, rfl⟩, ?_⟩
  · intro h
    cases a with
    | none =>
        simp only [computeCpus, detect_cpus] at h
        split at h
        · exact absurd h (by simp)
        · rename_i hd
          rw [Except.ok.injEq] at h
          subst h
          left
          omega
    | some value =>
        simp only [computeCpus] at h
        split at h
        · rename_i hv
          simp only [detect_cpus] at h
          split at h
          · exact absurd h (by simp)
          · rename_i hd
            split at h
            · exact absurd h (by simp)
            · rename_i hsub
              rw [Except.ok.injEq] at h
              subst h
              left
              omega
        · rename_i hv
          rw [Except.ok.injEq] at h
          subst h
          rcases lt_or_eq_of_le (not_lt.mp hv) with hpos | hzero
          · exact Or.inl hpos
          · exact Or.inr ⟨by rw [← hzero], hzero.symm⟩
  · intro hv hd
    rcases Nat.eq_zero_or_pos d with h0 | hpos
    · subst h0
      refine ⟨"Autodetection of CPUs failed. Use --cpus with a positive argument.", ?_⟩
      simp [computeCpus, detect_cpus, hv]
    · refine ⟨"cpus detected and subtracted via --cpus. No cpus left.", ?_⟩
      simp only [computeCpus, if_pos hv, detect_cpus]
      rw [if_neg (by omega)]
      simp [hd]

/-- Witness for C9: autodetection with four cpus yields a positive
capacity. -/
theorem c9_witness : 0 < (4 : Int) ∨ ((none : Option Int) = some 0 ∧ (4 : Int) = 0) :=
  (c9_capacity_positive_or_explicit_zero none 4 4 0).1 rfl

end Rain
